import Mathlib

/-!
# Sphero transport / orchestrator core

A shallow embedding of `src/nrf_sphero/sphero.cpp` (the device orchestrator
`Sphero`) and `src/nrf_sphero/ble/sphero_client.c` (the GATT transport client),
followed by theorems about chunked transmission, response correlation, the
write permit, construction, and LED-matrix frame compression.

Conventions.
* Bytes and machine integers are `Nat`/`Int`; a narrowing cast is written
  `% 256` at the place the C++ performs it.
* Calls into Zephyr or into parts of the firmware that are not modelled
  (`scanner_get_sphero`, `bt_gatt_write`, `k_poll`, ...) take their return
  value as an explicit argument of the embedded function.
* Everything a function does to the outside world is appended to the `trace`
  field of the orchestrator state.
-/

namespace SpheroSwarm

/-! ## Packets and effects -/

/-- Modelled from the spec: the `Packet` class is declared in a header that is
not among the sources. Per the spec a packet has a numeric identifier and
`build()` yields its wire bytes; nothing else of it is used by the
orchestrator. -/
structure Packet where
  id : Nat
  build : List Nat
deriving DecidableEq, Repr

/-- The `LOG_ERR` lines of `sphero.cpp`. -/
inductive LogLine where
  | sphero_not_found
  | subscribe_failed (err : Int)
  | error_sending_data
  | wait_failed (err : Int)
  | no_packet_for_id (res : Nat)
deriving DecidableEq, Repr

/-- Externally visible actions of the orchestrator. -/
inductive Effect where
  /-- A line written with `LOG_ERR(...)`. -/
  | log (line : LogLine)
  /-- The call `bt_sphero_subscribe(sphero_client, &received_cb_wrapper, this)`. -/
  | subscribe
  /-- The call `bt_sphero_client_send(sphero_client, payload.data() + offset, bytesToSend)`;
  `data` are the `bytesToSend` bytes starting at `offset`. -/
  | client_send (offset : Nat) (data : List Nat)
  /-- The call `scanner_release_sphero(sphero_client)`. -/
  | release_sphero
deriving DecidableEq, Repr

/-! ## `Sphero::execute` -/

/-- The `while (offset < payload.size())` loop of `Sphero::execute`.
`calls` counts the sends issued so far and selects the return value of the next
`bt_sphero_client_send` from `send_err`. Every iteration advances `offset` by
at least one byte, so `fuel = payload.size()` iterations always suffice. -/
def execute_loop (payload : List Nat) (test : Bool) (send_err : Nat → Int) :
    Nat → Nat → Nat → List Effect
  | 0, _, _ => []
  | fuel + 1, offset, calls =>
    if offset < payload.length then
      let remainingBytes := payload.length - offset
      let bytesToSend := if 20 < remainingBytes then 20 else remainingBytes
      if !test then
        let err := send_err calls
        let sent := [Effect.client_send offset ((payload.drop offset).take bytesToSend)]
        let logged := if err ≠ 0 then [Effect.log LogLine.error_sending_data] else []
        sent ++ logged ++ execute_loop payload test send_err fuel (offset + bytesToSend) (calls + 1)
      else
        execute_loop payload test send_err fuel (offset + bytesToSend) calls
    else []

/-- The effects of `Sphero::execute(packet, test)`. `client` tells whether
`scanner_get_sphero(sphero_id)` returned a client (`true`) or `nullptr`. -/
def execute_effects (packet : Packet) (test : Bool) (client : Bool) (send_err : Nat → Int) :
    List Effect :=
  let payload := packet.build
  if !client then
    [Effect.log LogLine.sphero_not_found]
  else
    execute_loop payload test send_err payload.length 0 0 ++ [Effect.release_sphero]

/-! ## Orchestrator state -/

/-- Zephyr's `struct k_poll_signal`, reduced to the two fields the orchestrator
relies on. `result` is an `int` in C; it only ever receives packet ids, which
are taken to fit. -/
structure k_poll_signal where
  signaled : Nat
  result : Nat
deriving DecidableEq, Repr

/-- The token `CommandResponse` (`std::unique_ptr<k_poll_event[]>`): one poll
event of type `K_POLL_TYPE_SIGNAL` that refers to a signal by address. -/
structure CommandResponse where
  signal : Nat
deriving DecidableEq, Repr

/-- The members of `class Sphero` used by the response correlation, with the
signal objects the `std::shared_ptr`s of `waiting` point to kept in a store
indexed by address. `next_signal` is the address `std::make_shared` hands out
next; addresses are never reused, and the destruction of a signal whose last
`shared_ptr` goes away is not tracked. -/
structure Sphero where
  /-- The member `std::unordered_map<id, std::shared_ptr<k_poll_signal>> waiting`:
  packet id to the address of the waiter's signal. -/
  waiting : Nat → Option Nat
  /-- The member `std::unordered_map<id, Packet> responses`. -/
  responses : Nat → Option Packet
  signals : Nat → k_poll_signal
  next_signal : Nat
  trace : List Effect

/-- The operation `std::unordered_map::insert_or_assign`. -/
def insert_or_assign {V : Type} (m : Nat → Option V) (key : Nat) (value : V) : Nat → Option V :=
  fun k => if k = key then some value else m k

/-- The operation `std::unordered_map::erase(key)`. -/
def erase {V : Type} (m : Nat → Option V) (key : Nat) : Nat → Option V :=
  fun k => if k = key then none else m k

/-- Write to the signal stored at `addr`. -/
def store_signal (signals : Nat → k_poll_signal) (addr : Nat) (value : k_poll_signal) :
    Nat → k_poll_signal :=
  fun a => if a = addr then value else signals a

/-- An orchestrator whose maps are empty and that has allocated no signal. -/
def Sphero.fresh : Sphero :=
  { waiting := fun _ => none
    responses := fun _ => none
    signals := fun _ => { signaled := 0, result := 0 }
    next_signal := 0
    trace := [] }

/-- The method `Sphero::execute(packet, test)`. -/
def execute (s : Sphero) (packet : Packet) (test : Bool) (client : Bool) (send_err : Nat → Int) :
    Sphero :=
  { s with trace := s.trace ++ execute_effects packet test client send_err }

/-- The method `Sphero::setup_response(packet)`: a new signal is allocated and initialised
(`k_poll_signal_init`), a poll event referring to it is built, and the signal is
stored in `waiting` under the packet id with `insert_or_assign`. -/
def setup_response (s : Sphero) (packet : Packet) : CommandResponse × Sphero :=
  let signal := s.next_signal
  let signals := store_signal s.signals signal { signaled := 0, result := 0 }
  let events : CommandResponse := { signal := signal }
  let id := packet.id
  (events,
    { s with
      signals := signals
      next_signal := signal + 1
      waiting := insert_or_assign s.waiting id signal })

/-- The method `Sphero::handle_packet(packet)`: without a waiter the packet is dropped;
otherwise it is stored in `responses` and the waiter's signal is raised with the
id as result (`k_poll_signal_raise(signal.get(), id)`). -/
def handle_packet (s : Sphero) (packet : Packet) : Sphero :=
  let id := packet.id
  match s.waiting id with
  | none => s
  | some signal =>
    { s with
      responses := insert_or_assign s.responses id packet
      signals := store_signal s.signals signal { signaled := 1, result := id } }

/-- What `Sphero::wait_for_response` hands back as its `std::optional<Packet>`. -/
inductive WaitResult where
  /-- The empty optional `std::nullopt`. -/
  | nullopt
  /-- an optional holding a copy of a packet stored in `responses` -/
  | value (packet : Packet)
  /-- an optional copied from an element that is no longer in the map: the
  iterator it is read through was invalidated by `erase` (undefined behaviour
  in C++, no definite packet) -/
  | dangling
deriving DecidableEq, Repr

/-- The expression `it->second` for the iterator `it = responses.find(key)`, evaluated against
the map as it is at the time of the dereference. `erase(key)` destroys the
element and invalidates the iterators to it. -/
def deref_second (responses : Nat → Option Packet) (key : Nat) : WaitResult :=
  match responses key with
  | some packet => WaitResult.value packet
  | none => WaitResult.dangling

/-- The method `Sphero::wait_for_response(response)`; `err` is what
`k_poll(response.get(), 1, K_MSEC(10000))` returned. The statements are in the
order of the source: `find`, the test against `end()`, `waiting.erase(res)`,
`responses.erase(res)`, and only then `return packet->second`. -/
def wait_for_response (s : Sphero) (response : CommandResponse) (err : Int) :
    WaitResult × Sphero :=
  if err ≠ 0 then
    (WaitResult.nullopt, { s with trace := s.trace ++ [Effect.log (LogLine.wait_failed err)] })
  else
    let res := (s.signals response.signal).result
    match s.responses res with
    | none =>
      (WaitResult.nullopt,
        { s with trace := s.trace ++ [Effect.log (LogLine.no_packet_for_id res)] })
    | some _ =>
      let waiting := erase s.waiting res
      let responses := erase s.responses res
      (deref_second responses res, { s with waiting := waiting, responses := responses })

/-- One call on the orchestrator, with the outcome of the poll for a wait. -/
inductive SpheroOp where
  | setup_response (packet : Packet)
  | handle_packet (packet : Packet)
  | wait_for_response (response : CommandResponse) (err : Int)

/-- The orchestrator after one call. -/
def SpheroOp.apply (s : Sphero) : SpheroOp → Sphero
  | SpheroOp.setup_response packet => (SpheroSwarm.setup_response s packet).2
  | SpheroOp.handle_packet packet => SpheroSwarm.handle_packet s packet
  | SpheroOp.wait_for_response response err => (SpheroSwarm.wait_for_response s response err).2

/-- The orchestrator after a sequence of calls. -/
def run_ops (s : Sphero) (ops : List SpheroOp) : Sphero :=
  ops.foldl SpheroOp.apply s

/-- Every signal referred to by `waiting` has been allocated. -/
def signals_allocated (s : Sphero) : Prop :=
  ∀ id signal, s.waiting id = some signal → signal < s.next_signal

/-- Every id with a cached response also has a pending wait. -/
def cache_covered (s : Sphero) : Prop :=
  ∀ id, s.responses id ≠ none → s.waiting id ≠ none

/-- The `(offset, bytes)` of the `bt_sphero_client_send` calls in a trace, in order. -/
def sends : List Effect → List (Nat × List Nat)
  | [] => []
  | Effect.client_send offset data :: rest => (offset, data) :: sends rest
  | _ :: rest => sends rest

/-- The chunk sequence the spec describes for a payload: consecutive pieces of
20 bytes starting at `offset`, the last one holding what is left. -/
def chunks_from (payload : List Nat) : Nat → Nat → List (Nat × List Nat)
  | 0, _ => []
  | count + 1, offset => (offset, (payload.drop offset).take 20) :: chunks_from payload count (offset + 20)

/-! ## Transport client (`sphero_client.c`) -/

/-- Zephyr errno values used by the client. -/
def EAGAIN : Int := 11

/-- Zephyr errno for "operation already in progress". -/
def EALREADY : Int := 120

/-- Zephyr errno for "socket is not connected". -/
def ENOTCONN : Int := 128

/-- The fields of `struct bt_sphero_client` that the send path reads or writes.
`writes_in_flight` is not a field of the C struct: it counts the GATT writes
that `bt_gatt_write` accepted and whose completion callback `on_sent` has not
run yet. -/
structure bt_sphero_client where
  /-- bit `SPHERO_C_INITALIZED` of `state` -/
  initialized : Bool
  /-- bit `SPHERO_C_WRITE_PENDING` of `state` -/
  write_pending : Bool
  /-- count of the semaphore `sending` (limit 1) -/
  sending : Nat
  /-- Whether `conn != NULL`. -/
  conn : Bool
  writes_in_flight : Nat
deriving DecidableEq, Repr

/-- Zephyr's `k_sem_take(&sem, timeout)` with no `k_sem_give` during the wait: the count
is decremented if it is positive, otherwise the wait times out with `-EAGAIN`.
Returns the error code and the new count. -/
def k_sem_take (count : Nat) : Int × Nat :=
  if 0 < count then (0, count - 1) else (-EAGAIN, count)

/-- Zephyr's `k_sem_give(&sem)` for a semaphore with the given limit. -/
def k_sem_give (count limit : Nat) : Nat :=
  if count < limit then count + 1 else count

/-- A zero-initialised client structure. -/
def bt_sphero_client.zeroed : bt_sphero_client :=
  { initialized := false, write_pending := false, sending := 0, conn := false,
    writes_in_flight := 0 }

/-- The function `bt_sphero_client_init` on non-null arguments: `-EALREADY` when the
initialised bit was set, otherwise `k_sem_init(&sending, 1, 1)`. -/
def bt_sphero_client_init (c : bt_sphero_client) : Int × bt_sphero_client :=
  if c.initialized then (-EALREADY, c)
  else (0, { c with initialized := true, sending := 1 })

/-- The function `bt_sphero_client_send`; `gatt_err` is what `bt_gatt_write` returns if the
call gets that far. On `gatt_err = 0` the write has been started and its
completion callback is outstanding. -/
def bt_sphero_client_send (c : bt_sphero_client) (gatt_err : Int) : Int × bt_sphero_client :=
  let taken := k_sem_take c.sending
  let c1 := { c with sending := taken.2 }
  if taken.1 ≠ 0 then (taken.1, c1)
  else if !c1.conn then (-ENOTCONN, c1)
  else if c1.write_pending then (-EALREADY, c1)
  else
    let c2 := { c1 with write_pending := true }
    if gatt_err ≠ 0 then (gatt_err, { c2 with write_pending := false })
    else (gatt_err, { c2 with writes_in_flight := c2.writes_in_flight + 1 })

/-- The completion callback `on_sent`: clears the write-pending bit and gives
the semaphore; the write it completes is no longer in flight. -/
def on_sent (c : bt_sphero_client) : bt_sphero_client :=
  { c with
    write_pending := false
    sending := k_sem_give c.sending 1
    writes_in_flight := c.writes_in_flight - 1 }

/-- What can happen to an initialised client. -/
inductive ClientEvent where
  /-- a call of `bt_sphero_client_send`, with the outcome of `bt_gatt_write` -/
  | send (gatt_err : Int)
  /-- the completion callback of a started write -/
  | sent
  /-- The field `sphero_c->conn` is assigned (`bt_sphero_handles_assign`) or cleared -/
  | set_conn (connected : Bool)
deriving DecidableEq, Repr

/-- One event; `none` when the event cannot happen in this state (a completion
callback without a started write). -/
def ClientEvent.step (c : bt_sphero_client) : ClientEvent → Option bt_sphero_client
  | ClientEvent.send gatt_err => some (bt_sphero_client_send c gatt_err).2
  | ClientEvent.sent => if 0 < c.writes_in_flight then some (on_sent c) else none
  | ClientEvent.set_conn connected => some { c with conn := connected }

/-- The client after a sequence of events, `none` if one of them cannot happen. -/
def run_client (c : bt_sphero_client) : List ClientEvent → Option bt_sphero_client
  | [] => some c
  | ev :: rest =>
    match ev.step c with
    | none => none
    | some c1 => run_client c1 rest

/-- The client right after `bt_sphero_client_init`: permit count 1,
write-pending clear, no write started. -/
def bt_sphero_client.initial : bt_sphero_client :=
  (bt_sphero_client_init bt_sphero_client.zeroed).2

/-- The permit and the started writes account for at most one unit together,
and the write-pending bit is set only while a write is in flight. -/
def permit_invariant (c : bt_sphero_client) : Prop :=
  c.sending + c.writes_in_flight ≤ 1 ∧ (c.write_pending = true → c.writes_in_flight = 1)

/-! ## Construction -/

/-- Modelled from the spec: the command encoders (`Power::wake`,
`IO::set_all_leds_with_8_bit_mask`, `IO::set_led_matrix_color`) are not among
the sources; per the spec each yields an opaque framed packet from its
parameters. The sequence number they draw from the orchestrator is part of the
packet they return. -/
structure Encoders where
  wake : Packet
  set_all_leds_with_8_bit_mask : Nat → List Nat → Packet
  set_led_matrix_color : Nat → Nat → Nat → Packet

/-- What the outside world answers while the constructor runs. The call sites
of `execute` are numbered 1 (wake), 2 (LEDs) and 3 (matrix colour); 0 is
`subscribe`. -/
structure Environment where
  /-- whether `scanner_get_sphero` returns a client at the given call site -/
  client : Nat → Bool
  /-- return value of `bt_sphero_subscribe` -/
  subscribe_err : Int
  /-- return value of the given send of the given call site -/
  send_err : Nat → Nat → Int
  /-- packets the reassembler hands to `handle_packet` while the constructor
  blocks in `k_poll` -/
  arrivals : List Packet
  /-- return value of `k_poll` -/
  poll_err : Int

/-- Modelled from the spec: the default of the parameter `test` of `execute`
is declared in `sphero.hpp`, which is not among the sources. Commands are
described as really sent, so the default is `false`. -/
def default_test : Bool := false

/-- The method `Sphero::subscribe()`. -/
def subscribe (s : Sphero) (client : Bool) (err : Int) : Sphero :=
  if !client then
    { s with trace := s.trace ++ [Effect.log LogLine.sphero_not_found] }
  else
    let failed := if err ≠ 0 then [Effect.log (LogLine.subscribe_failed err)] else []
    { s with trace := s.trace ++ [Effect.subscribe] ++ failed ++ [Effect.release_sphero] }

/-- The method `Sphero::wake_with_response()`. -/
def wake_with_response (s : Sphero) (enc : Encoders) (client : Bool) (send_err : Nat → Int) :
    CommandResponse × Sphero :=
  let packet := enc.wake
  setup_response (execute s packet default_test client send_err) packet

/-- The loop of `Sphero::set_all_leds_with_map`: the `uint8_t mask` and the
`led_values` collected over the LEDs `0 .. LAST - 1` present in `mapping`. -/
def mask_and_values (LAST : Nat) (mapping : Nat → Option Nat) : Nat × List Nat :=
  (List.range LAST).foldl
    (fun (acc : Nat × List Nat) i =>
      match mapping i with
      | some value => ((acc.1 ||| (1 <<< (i % 256))) % 256, acc.2 ++ [value])
      | none => acc)
    (0, [])

/-- The method `Sphero::set_all_leds_with_map(mapping)`, which calls
`set_all_leds_with_8_bit_mask` when the mask is not zero. -/
def set_all_leds_with_map (s : Sphero) (enc : Encoders) (LAST : Nat) (mapping : Nat → Option Nat)
    (client : Bool) (send_err : Nat → Int) : Sphero :=
  let mv := mask_and_values LAST mapping
  if mv.1 ≠ 0 then
    execute s (enc.set_all_leds_with_8_bit_mask mv.1 mv.2) default_test client send_err
  else s

/-- The method `Sphero::turn_off_all_leds()`: every LED mapped to 0, then
`set_matrix_color(RGBColor(0, 0, 0))`. -/
def turn_off_all_leds (s : Sphero) (enc : Encoders) (LAST : Nat) (env : Environment) : Sphero :=
  let mapping : Nat → Option Nat := fun i => if i < LAST then some 0 else none
  let s1 := set_all_leds_with_map s enc LAST mapping (env.client 2) (env.send_err 2)
  execute s1 (enc.set_led_matrix_color 0 0 0) default_test (env.client 3) (env.send_err 3)

/-- The orchestrator just before the constructor `Sphero::Sphero(id)` calls
`turn_off_all_leds()`: after `subscribe()`, `wake_with_response()` and
`wait_for_response(response)`, whose result the constructor discards. -/
def Sphero.before_reset (enc : Encoders) (env : Environment) : Sphero :=
  let s1 := subscribe Sphero.fresh (env.client 0) env.subscribe_err
  let response := wake_with_response s1 enc (env.client 1) (env.send_err 1)
  let s2 := env.arrivals.foldl handle_packet response.2
  (wait_for_response s2 response.1 env.poll_err).2

/-- The constructor `Sphero::Sphero(id)`. It has no return value and throws
nothing: the result is the constructed orchestrator. `LAST` is the enumerator
`Sphero::LEDs::LAST` of the header. -/
def Sphero.construct (enc : Encoders) (LAST : Nat) (env : Environment) : Sphero :=
  turn_off_all_leds (Sphero.before_reset enc env) enc LAST env

/-- What `wait_for_response(response)` returns inside the constructor. -/
def Sphero.wake_response (enc : Encoders) (env : Environment) : WaitResult :=
  let s1 := subscribe Sphero.fresh (env.client 0) env.subscribe_err
  let response := wake_with_response s1 enc (env.client 1) (env.send_err 1)
  let s2 := env.arrivals.foldl handle_packet response.2
  (wait_for_response s2 response.1 env.poll_err).1

/-! ## LED-matrix frame compression -/

/-- The pixel `frame[row_idx][col_idx]` for a frame given as rows of `uint8_t` pixels. The
C++ indexes without a bounds check; outside the bounds this reads 0, and the
theorems below only speak about frames that contain the 8x8 grid. -/
def pixel (frame : List (List Nat)) (row_idx col_idx : Nat) : Nat :=
  (frame.getD row_idx []).getD col_idx 0

/-- The byte `res` that the `col_idx` loop of `register_matrix_animation`
builds for bit plane `idx` and row `row_idx`; `bit` and `res` are `uint8_t`. -/
def row_byte (frame : List (List Nat)) (idx row_idx : Nat) : Nat :=
  (List.range 8).foldl
    (fun res col_idx =>
      let bit := ((pixel frame row_idx col_idx &&& (1 <<< idx)) >>> idx) % 256
      (res ||| (bit <<< (7 - col_idx))) % 256)
    0

/-- The vector `compressed_frame` that `register_matrix_animation` builds for one
frame and passes to `save_compressed_frame`: for `idx` from 0 to 3, for
`row_idx` counting down from 7 until the `uint8_t` counter wraps to
`UINT8_MAX`, one byte is pushed. -/
def compressed_frame (frame : List (List Nat)) : List Nat :=
  (List.range 4).foldl
    (fun compressed_frame idx =>
      [7, 6, 5, 4, 3, 2, 1, 0].foldl
        (fun compressed_frame row_idx => compressed_frame ++ [row_byte frame idx row_idx])
        compressed_frame)
    []

/-- The packed byte of eight one-bit values, as the column loop builds it. -/
def pack_bits (b0 b1 b2 b3 b4 b5 b6 b7 : Bool) : Nat :=
  ((((((((0 ||| b0.toNat <<< (7 - 0)) % 256 ||| b1.toNat <<< (7 - 1)) % 256
    ||| b2.toNat <<< (7 - 2)) % 256 ||| b3.toNat <<< (7 - 3)) % 256
    ||| b4.toNat <<< (7 - 4)) % 256 ||| b5.toNat <<< (7 - 5)) % 256
    ||| b6.toNat <<< (7 - 6)) % 256 ||| b7.toNat <<< (7 - 7)) % 256

/-! ## Sample data -/

/-- Sample encoders: a wake packet with id `0x1101` and short LED and
matrix-colour packets. -/
def sample_encoders : Encoders :=
  { wake := { id := 0x1101, build := [0x8d, 0x0a, 0x13, 0x0d, 0x01, 0xd8] }
    set_all_leds_with_8_bit_mask := fun mask led_values =>
      { id := 0x1a1c, build := [0x8d, 0x1a, 0x1c, mask] ++ led_values ++ [0xd8] }
    set_led_matrix_color := fun r g b =>
      { id := 0x1a2f, build := [0x8d, 0x1a, 0x2f, r, g, b, 0xd8] } }

/-- A run in which the client is leased every time, `bt_sphero_subscribe`
fails with `-EALREADY`, every send succeeds, no packet arrives and the poll
times out with `-EAGAIN`. -/
def subscribe_error_run : Environment :=
  { client := fun _ => true
    subscribe_err := -120
    send_err := fun _ _ => 0
    arrivals := []
    poll_err := -11 }

/-- A run in which `scanner_get_sphero` returns `nullptr` inside `subscribe`
and a client afterwards, no packet arrives and the poll times out. -/
def not_found_run : Environment :=
  { client := fun site => decide (site ≠ 0)
    subscribe_err := 0
    send_err := fun _ _ => 0
    arrivals := []
    poll_err := -11 }

/-! # Theorems -/

/-! ## Chunked transmission -/

theorem sends_append (a b : List Effect) : sends (a ++ b) = sends a ++ sends b := by
  induction a with
  | nil => rfl
  | cons e rest ih => cases e <;> simp [sends, ih]

/-- With `test == false` the loop issues exactly the spec's chunk sequence for
what is left of the payload, provided the fuel covers the remaining bytes. -/
theorem execute_loop_sends (payload : List Nat) (send_err : Nat → Int) :
    ∀ (fuel offset calls : Nat), payload.length ≤ offset + fuel →
      sends (execute_loop payload false send_err fuel offset calls)
        = chunks_from payload ((payload.length - offset + 19) / 20) offset := by
  intro fuel
  induction fuel with
  | zero =>
    intro offset calls h
    have h0 : (payload.length - offset + 19) / 20 = 0 := by omega
    simp [execute_loop, sends, h0, chunks_from]
  | succ fuel ih =>
    intro offset calls h
    by_cases hlt : offset < payload.length
    · by_cases hbig : 20 < payload.length - offset
      · have hc : (payload.length - offset + 19) / 20
            = (payload.length - (offset + 20) + 19) / 20 + 1 := by omega
        have hrec := ih (offset + 20) (calls + 1) (by omega)
        simp only [execute_loop, hlt, hbig, if_true, Bool.not_false]
        rw [sends_append, sends_append, hc, chunks_from, ← hrec]
        by_cases he : send_err calls ≠ 0 <;> simp [sends, he]
      · have hc : (payload.length - offset + 19) / 20 = 1 := by omega
        have hrec := ih (offset + (payload.length - offset)) (calls + 1) (by omega)
        have hc0 : (payload.length - (offset + (payload.length - offset)) + 19) / 20 = 0 := by
          omega
        rw [hc0] at hrec
        have htake : List.take (payload.length - offset) (List.drop offset payload)
            = List.take 20 (List.drop offset payload) := by
          rw [List.take_of_length_le (by simp), List.take_of_length_le (by simp; omega)]
        simp only [execute_loop, hlt, hbig, if_true, if_false, Bool.not_false]
        rw [sends_append, sends_append, hc, hrec, htake]
        by_cases he : send_err calls ≠ 0 <;> simp [sends, he, chunks_from]
    · have h0 : (payload.length - offset + 19) / 20 = 0 := by omega
      simp [execute_loop, hlt, sends, h0, chunks_from]

theorem chunks_from_length (payload : List Nat) :
    ∀ (count offset : Nat), (chunks_from payload count offset).length = count := by
  intro count
  induction count with
  | zero => intro offset; rfl
  | succ count ih => intro offset; simp [chunks_from, ih]

theorem chunks_from_get (payload : List Nat) :
    ∀ (count offset i : Nat), i < count →
      (chunks_from payload count offset)[i]?
        = some (offset + 20 * i, (payload.drop (offset + 20 * i)).take 20) := by
  intro count
  induction count with
  | zero => intro offset i h; omega
  | succ count ih =>
    intro offset i h
    cases i with
    | zero => simp [chunks_from]
    | succ i =>
      have := ih (offset + 20) i (by omega)
      simp only [chunks_from, List.getElem?_cons_succ, this]
      have e : offset + 20 + 20 * i = offset + 20 * (i + 1) := by omega
      rw [e]

theorem chunks_from_flatten (payload : List Nat) :
    ∀ (count offset : Nat), payload.length ≤ offset + 20 * count →
      ((chunks_from payload count offset).map Prod.snd).flatten = payload.drop offset := by
  intro count
  induction count with
  | zero =>
    intro offset h
    simp [chunks_from, List.drop_eq_nil_of_le (show payload.length ≤ offset by omega)]
  | succ count ih =>
    intro offset h
    have := ih (offset + 20) (by omega)
    simp only [chunks_from, List.map_cons, List.flatten_cons, this]
    rw [← List.drop_drop, List.take_append_drop]

theorem execute_loop_test_mode (payload : List Nat) (send_err : Nat → Int) :
    ∀ (fuel offset calls : Nat), sends (execute_loop payload true send_err fuel offset calls) = [] := by
  intro fuel
  induction fuel with
  | zero => intro offset calls; rfl
  | succ fuel ih =>
    intro offset calls
    by_cases hlt : offset < payload.length
    · simp only [execute_loop, hlt, if_true, Bool.not_true, Bool.false_eq_true, if_false]
      exact ih _ _
    · simp [execute_loop, hlt, sends]

/-- The dry run: called with `test == true`, `execute` walks the payload without
issuing a single send, for every packet, lease outcome and send oracle. No
call in `sphero.cpp` passes the flag. -/
theorem execute_test_mode_sends_nothing (packet : Packet) (client : Bool)
    (send_err : Nat → Int) : sends (execute_effects packet true client send_err) = [] := by
  cases client with
  | false => simp [execute_effects, sends]
  | true =>
    simp only [execute_effects, Bool.not_true, Bool.false_eq_true, if_false, sends_append,
      execute_loop_test_mode]
    simp [sends]

/-- C1: with a leased client and the `test` flag clear (its default, and the
way every command of the orchestrator calls `execute`), whatever the
individual sends return, `execute` issues exactly `ceil(n/20)` sends; the
`i`-th one starts at offset `20 * i` and carries the payload bytes from there,
20 of them except for the last send, which carries `n - 20 * (ceil(n/20) - 1)`
bytes (between 1 and 20); the chunks concatenate to the payload; an empty
payload issues no send; and 45 bytes go out as 20, 20, 5. -/
theorem execute_chunks (packet : Packet) (send_err : Nat → Int) :
    (sends (execute_effects packet false true send_err)).length = (packet.build.length + 19) / 20
    ∧ (∀ i, i < (packet.build.length + 19) / 20 →
        (sends (execute_effects packet false true send_err))[i]?
            = some (20 * i, (packet.build.drop (20 * i)).take 20)
        ∧ ((packet.build.drop (20 * i)).take 20).length
            = if i + 1 < (packet.build.length + 19) / 20 then 20
              else packet.build.length - 20 * ((packet.build.length + 19) / 20 - 1))
    ∧ (0 < packet.build.length →
        1 ≤ packet.build.length - 20 * ((packet.build.length + 19) / 20 - 1)
        ∧ packet.build.length - 20 * ((packet.build.length + 19) / 20 - 1) ≤ 20)
    ∧ ((sends (execute_effects packet false true send_err)).map Prod.snd).flatten = packet.build
    ∧ (packet.build.length = 0 → sends (execute_effects packet false true send_err) = [])
    ∧ (packet.build.length = 45 →
        (sends (execute_effects packet false true send_err)).map (fun c => c.2.length)
          = [20, 20, 5]) := by
  have key : sends (execute_effects packet false true send_err)
      = chunks_from packet.build ((packet.build.length + 19) / 20) 0 := by
    have h := execute_loop_sends packet.build send_err packet.build.length 0 0 (by omega)
    simp only [execute_effects, Bool.not_true, Bool.false_eq_true, if_false, sends_append, h]
    simp [sends]
  refine ⟨?_, ?_, ?_, ?_, ?_, ?_⟩
  · rw [key, chunks_from_length]
  · intro i hi
    refine ⟨?_, ?_⟩
    · rw [key, chunks_from_get _ _ _ _ hi]; simp
    · rw [List.length_take, List.length_drop]
      split <;> omega
  · intro h; omega
  · rw [key, chunks_from_flatten _ _ _ (by omega)]; simp
  · intro h
    rw [key, h]; rfl
  · intro h
    rw [key, h]
    simp [chunks_from, List.length_take, List.length_drop, h]

/-- Instance of `execute_chunks`: a 45-byte wake packet with id `0x1101`, every
send failing with `-11`. -/
theorem execute_chunks_witness :
    (sends (execute_effects { id := 0x1101, build := List.replicate 45 7 } false true
        (fun _ => -11))).map (fun c => c.2.length) = [20, 20, 5] :=
  (execute_chunks { id := 0x1101, build := List.replicate 45 7 } (fun _ => -11)).2.2.2.2.2
    (by decide)

/-! ## Response correlation -/

/-- C2 (the code at the failing input): a wake command with id `0x1101` is
registered on a fresh orchestrator and a reply with the same id is handled; the
token's signal is then raised with the id as result, and `wait_for_response`
with a successful poll clears the id from `waiting` and from `responses`, but
what it returns is read from the entry it has just erased, not the reply. -/
theorem wait_for_response_reads_erased_entry :
    (handle_packet (setup_response Sphero.fresh { id := 0x1101, build := [0x8d, 0x0a] }).2
        { id := 0x1101, build := [0x8d, 0x09, 0xd8] }).signals
        (setup_response Sphero.fresh { id := 0x1101, build := [0x8d, 0x0a] }).1.signal
      = { signaled := 1, result := 0x1101 }
    ∧ (wait_for_response
        (handle_packet (setup_response Sphero.fresh { id := 0x1101, build := [0x8d, 0x0a] }).2
          { id := 0x1101, build := [0x8d, 0x09, 0xd8] })
        (setup_response Sphero.fresh { id := 0x1101, build := [0x8d, 0x0a] }).1 0).1
      = WaitResult.dangling
    ∧ (wait_for_response
        (handle_packet (setup_response Sphero.fresh { id := 0x1101, build := [0x8d, 0x0a] }).2
          { id := 0x1101, build := [0x8d, 0x09, 0xd8] })
        (setup_response Sphero.fresh { id := 0x1101, build := [0x8d, 0x0a] }).1 0).1
      ≠ WaitResult.value { id := 0x1101, build := [0x8d, 0x09, 0xd8] }
    ∧ (wait_for_response
        (handle_packet (setup_response Sphero.fresh { id := 0x1101, build := [0x8d, 0x0a] }).2
          { id := 0x1101, build := [0x8d, 0x09, 0xd8] })
        (setup_response Sphero.fresh { id := 0x1101, build := [0x8d, 0x0a] }).1 0).2.waiting
        0x1101 = none
    ∧ (wait_for_response
        (handle_packet (setup_response Sphero.fresh { id := 0x1101, build := [0x8d, 0x0a] }).2
          { id := 0x1101, build := [0x8d, 0x09, 0xd8] })
        (setup_response Sphero.fresh { id := 0x1101, build := [0x8d, 0x0a] }).1 0).2.responses
        0x1101 = none := by
  decide

/-- In no state and for no token does `wait_for_response` hand back a packet
of the map: on the only path that returns a value the entry has been erased
before it is read. -/
theorem wait_for_response_never_value (s : Sphero) (response : CommandResponse) (err : Int)
    (packet : Packet) : (wait_for_response s response err).1 ≠ WaitResult.value packet := by
  simp only [wait_for_response]
  split
  · simp
  · split
    · simp
    · simp [deref_second, erase]

/-- C3: a packet whose id is not a key of `waiting` leaves the orchestrator
exactly as it was: both maps, every signal (none is raised) and the trace. -/
theorem handle_packet_unmatched (s : Sphero) (packet : Packet)
    (h : s.waiting packet.id = none) : handle_packet s packet = s := by
  simp [handle_packet, h]

/-- Instance of `handle_packet_unmatched`: a notification with id 7 while only
id `0x1101` is awaited. -/
theorem handle_packet_unmatched_witness :
    handle_packet (setup_response Sphero.fresh { id := 0x1101, build := [] }).2
        { id := 7, build := [1, 2] }
      = (setup_response Sphero.fresh { id := 0x1101, build := [] }).2 :=
  handle_packet_unmatched _ { id := 7, build := [1, 2] } (by decide)

/-- C7: when the poll returns an error the wait yields no packet, and no entry
of `waiting` or of `responses` (nor any signal) is touched. -/
theorem wait_for_response_timeout (s : Sphero) (response : CommandResponse) (err : Int)
    (h : err ≠ 0) :
    (wait_for_response s response err).1 = WaitResult.nullopt
    ∧ (wait_for_response s response err).2.waiting = s.waiting
    ∧ (wait_for_response s response err).2.responses = s.responses
    ∧ (wait_for_response s response err).2.signals = s.signals := by
  simp [wait_for_response, h]

/-- Instance of `wait_for_response_timeout`: the wake reply never arrives and
the poll returns `-EAGAIN`. -/
theorem wait_for_response_timeout_witness :
    (wait_for_response (setup_response Sphero.fresh { id := 0x1101, build := [] }).2
        (setup_response Sphero.fresh { id := 0x1101, build := [] }).1 (-11)).1
      = WaitResult.nullopt :=
  (wait_for_response_timeout _ _ (-11) (by decide)).1

/-! ### Invariants of the two maps -/

theorem signals_allocated_apply (s : Sphero) (op : SpheroOp) (h : signals_allocated s) :
    signals_allocated (op.apply s) := by
  intro id signal
  cases op with
  | setup_response packet =>
    simp only [SpheroOp.apply, setup_response, insert_or_assign]
    intro hw
    split at hw
    · simp only [Option.some.injEq] at hw; omega
    · have := h id signal hw; omega
  | handle_packet packet =>
    simp only [SpheroOp.apply, handle_packet]
    split
    · exact h id signal
    · exact h id signal
  | wait_for_response response err =>
    simp only [SpheroOp.apply, wait_for_response]
    split
    · exact h id signal
    · split
      · exact h id signal
      · simp only [erase]
        intro hw
        split at hw
        · simp at hw
        · exact h id signal hw

theorem cache_covered_apply (s : Sphero) (op : SpheroOp) (h : cache_covered s) :
    cache_covered (op.apply s) := by
  intro id
  cases op with
  | setup_response packet =>
    simp only [SpheroOp.apply, setup_response, insert_or_assign]
    intro hr
    split
    · simp
    · exact h id hr
  | handle_packet packet =>
    simp only [SpheroOp.apply, handle_packet]
    split
    · exact h id
    · rename_i signal hsig
      simp only [insert_or_assign]
      intro hr
      split at hr
      · rename_i hid
        rw [hid, hsig]; simp
      · exact h id hr
  | wait_for_response response err =>
    simp only [SpheroOp.apply, wait_for_response]
    split
    · exact h id
    · split
      · exact h id
      · simp only [erase]
        intro hr
        split
        · rename_i heq
          simp [heq] at hr
        · rename_i hne
          simp only [hne, if_false] at hr
          exact h id hr

theorem signals_allocated_run (ops : List SpheroOp) :
    ∀ s, signals_allocated s → signals_allocated (run_ops s ops) := by
  induction ops with
  | nil => intro s h; exact h
  | cons op rest ih =>
    intro s h
    exact ih (op.apply s) (signals_allocated_apply s op h)

theorem cache_covered_run (ops : List SpheroOp) :
    ∀ s, cache_covered s → cache_covered (run_ops s ops) := by
  induction ops with
  | nil => intro s h; exact h
  | cons op rest ih =>
    intro s h
    exact ih (op.apply s) (cache_covered_apply s op h)

theorem signals_allocated_fresh : signals_allocated Sphero.fresh := by
  intro id signal h
  simp [Sphero.fresh] at h

/-- C4 (as stated, refuted): on a fresh orchestrator a second `setup_response`
for the same id returns a token like the first one did, logs nothing, and the
entry of `waiting` for the id no longer refers to the first waiter's signal but
to the second one's. -/
theorem setup_response_twice_replaces :
    (setup_response (setup_response Sphero.fresh { id := 0x1101, build := [] }).2
        { id := 0x1101, build := [] }).2.waiting 0x1101
      ≠ some (setup_response Sphero.fresh { id := 0x1101, build := [] }).1.signal
    ∧ (setup_response (setup_response Sphero.fresh { id := 0x1101, build := [] }).2
        { id := 0x1101, build := [] }).2.waiting 0x1101
      = some (setup_response (setup_response Sphero.fresh { id := 0x1101, build := [] }).2
          { id := 0x1101, build := [] }).1.signal
    ∧ (setup_response (setup_response Sphero.fresh { id := 0x1101, build := [] }).2
        { id := 0x1101, build := [] }).2.trace = [] := by
  decide

/-- C4 (amended): in every state reached from a fresh orchestrator, a
`setup_response` for an id that already has a pending entry is not detected: it
returns a token for a newly allocated signal, different from the first
waiter's, and the entry of `waiting` for that id refers to the new signal
afterwards; the other entries of `waiting`, the whole of `responses` and the
trace (nothing is logged) are as before. -/
theorem setup_response_duplicate (ops : List SpheroOp) (packet : Packet) (first : Nat)
    (h : (run_ops Sphero.fresh ops).waiting packet.id = some first) :
    (setup_response (run_ops Sphero.fresh ops) packet).1.signal ≠ first
    ∧ (setup_response (run_ops Sphero.fresh ops) packet).2.waiting packet.id
        = some (setup_response (run_ops Sphero.fresh ops) packet).1.signal
    ∧ (∀ id, id ≠ packet.id →
        (setup_response (run_ops Sphero.fresh ops) packet).2.waiting id
          = (run_ops Sphero.fresh ops).waiting id)
    ∧ (setup_response (run_ops Sphero.fresh ops) packet).2.responses
        = (run_ops Sphero.fresh ops).responses
    ∧ (setup_response (run_ops Sphero.fresh ops) packet).2.trace
        = (run_ops Sphero.fresh ops).trace := by
  have halloc := signals_allocated_run ops Sphero.fresh signals_allocated_fresh packet.id first h
  refine ⟨?_, ?_, ?_, rfl, rfl⟩
  · simp only [setup_response]; omega
  · simp [setup_response, insert_or_assign]
  · intro id hne
    simp [setup_response, insert_or_assign, hne]

/-- Instance of `setup_response_duplicate`: the state after one
`setup_response` for id `0x1101`, whose signal has address 0. -/
theorem setup_response_duplicate_witness :
    (run_ops Sphero.fresh [SpheroOp.setup_response { id := 0x1101, build := [] }]).waiting 0x1101
        = some 0
    ∧ (setup_response
        (run_ops Sphero.fresh [SpheroOp.setup_response { id := 0x1101, build := [] }])
        { id := 0x1101, build := [] }).1.signal ≠ 0 :=
  ⟨by decide,
    (setup_response_duplicate [SpheroOp.setup_response { id := 0x1101, build := [] }]
      { id := 0x1101, build := [] } 0 (by decide)).1⟩

/-- C9: starting from an orchestrator whose maps are empty (an empty
`responses` is all the proof needs), after any sequence
of `setup_response`, `handle_packet` and `wait_for_response` calls (with any
poll outcome) every id that has an entry in `responses` has an entry in
`waiting`; and a `wait_for_response` call, in any state, either erases its
result id from both maps or leaves both maps as they are. -/
theorem correlation_maps_invariant (s0 : Sphero) (h_responses : s0.responses = fun _ => none)
    (ops : List SpheroOp) :
    (∀ id, (run_ops s0 ops).responses id ≠ none → (run_ops s0 ops).waiting id ≠ none)
    ∧ (∀ (s : Sphero) (response : CommandResponse) (err : Int),
        ((wait_for_response s response err).2.waiting = s.waiting
          ∧ (wait_for_response s response err).2.responses = s.responses)
        ∨ ((wait_for_response s response err).2.waiting
              = erase s.waiting (s.signals response.signal).result
          ∧ (wait_for_response s response err).2.responses
              = erase s.responses (s.signals response.signal).result)) := by
  refine ⟨?_, ?_⟩
  · apply cache_covered_run ops s0
    intro id hr
    simp [h_responses] at hr
  · intro s response err
    simp only [wait_for_response]
    split
    · exact Or.inl ⟨rfl, rfl⟩
    · split
      · exact Or.inl ⟨rfl, rfl⟩
      · exact Or.inr ⟨rfl, rfl⟩

/-- Instance of `correlation_maps_invariant`: a request, its reply, a reply
nobody waits for, and a timed-out wait, from the fresh orchestrator. -/
theorem correlation_maps_invariant_witness :
    (Sphero.fresh.responses = fun _ => none)
    ∧ ∀ id,
      (run_ops Sphero.fresh
        [SpheroOp.setup_response { id := 0x1101, build := [] },
         SpheroOp.handle_packet { id := 0x1101, build := [1] },
         SpheroOp.handle_packet { id := 9, build := [2] },
         SpheroOp.wait_for_response { signal := 0 } (-11)]).responses id ≠ none →
      (run_ops Sphero.fresh
        [SpheroOp.setup_response { id := 0x1101, build := [] },
         SpheroOp.handle_packet { id := 0x1101, build := [1] },
         SpheroOp.handle_packet { id := 9, build := [2] },
         SpheroOp.wait_for_response { signal := 0 } (-11)]).waiting id ≠ none :=
  ⟨rfl, (correlation_maps_invariant Sphero.fresh rfl _).1⟩

/-! ## Write permit -/

theorem permit_invariant_send (c : bt_sphero_client) (gatt_err : Int) (h : permit_invariant c) :
    permit_invariant (bt_sphero_client_send c gatt_err).2 := by
  obtain ⟨h1, h2⟩ := h
  simp only [bt_sphero_client_send, k_sem_take, permit_invariant]
  by_cases hs : 0 < c.sending
  · by_cases hc : c.conn = true
    · by_cases hp : c.write_pending = true
      · have := h2 hp; omega
      · by_cases hg : gatt_err = 0
        · simp [hs, hc, hp, hg]; omega
        · simp [hs, hc, hp, hg]; omega
    · simp [hs, hc]
      exact ⟨by omega, h2⟩
  · simp [hs, EAGAIN]
    exact ⟨h1, h2⟩

theorem permit_invariant_step (c c1 : bt_sphero_client) (ev : ClientEvent)
    (h : permit_invariant c) (hstep : ev.step c = some c1) : permit_invariant c1 := by
  cases ev with
  | send gatt_err =>
    simp only [ClientEvent.step, Option.some.injEq] at hstep
    rw [← hstep]
    exact permit_invariant_send c gatt_err h
  | sent =>
    simp only [ClientEvent.step] at hstep
    split at hstep
    · simp only [Option.some.injEq] at hstep
      rw [← hstep]
      obtain ⟨h1, _⟩ := h
      simp only [permit_invariant, on_sent, k_sem_give]
      refine ⟨?_, by simp⟩
      split <;> omega
    · simp at hstep
  | set_conn connected =>
    simp only [ClientEvent.step, Option.some.injEq] at hstep
    rw [← hstep]
    exact h

theorem permit_invariant_run (evs : List ClientEvent) :
    ∀ c c1, permit_invariant c → run_client c evs = some c1 → permit_invariant c1 := by
  induction evs with
  | nil =>
    intro c c1 h hrun
    simp only [run_client, Option.some.injEq] at hrun
    rw [← hrun]; exact h
  | cons ev rest ih =>
    intro c c1 h hrun
    simp only [run_client] at hrun
    split at hrun
    · simp at hrun
    · rename_i c2 hstep
      exact ih c2 c1 (permit_invariant_step c c2 ev h hstep) hrun

theorem permit_invariant_initial : permit_invariant bt_sphero_client.initial := by
  simp [permit_invariant, bt_sphero_client.initial, bt_sphero_client_init,
    bt_sphero_client.zeroed]

/-- C5: in every state reached from `bt_sphero_client_init` by sends (whatever
the permit wait, the connection and `bt_gatt_write` yield) and completion
callbacks of started writes, at most one GATT write is in flight; and a send
that starts a write does so from a state with no write in flight. -/
theorem write_serialization (evs : List ClientEvent) (c : bt_sphero_client)
    (h : run_client bt_sphero_client.initial evs = some c) :
    c.writes_in_flight ≤ 1
    ∧ ∀ gatt_err,
        (bt_sphero_client_send c gatt_err).2.writes_in_flight ≠ c.writes_in_flight →
        c.writes_in_flight = 0
        ∧ (bt_sphero_client_send c gatt_err).2.writes_in_flight = 1 := by
  have hinv := permit_invariant_run evs _ c permit_invariant_initial h
  have hnext := fun g => permit_invariant_send c g hinv
  obtain ⟨h1, h2⟩ := hinv
  refine ⟨by omega, ?_⟩
  intro gatt_err hne
  have hn := (hnext gatt_err).1
  revert hne hn
  simp only [bt_sphero_client_send, k_sem_take]
  by_cases hs : 0 < c.sending
  · by_cases hc : c.conn = true
    · by_cases hp : c.write_pending = true
      · simp [hs, hc, hp]
      · by_cases hg : gatt_err = 0
        · simp [hs, hc, hp, hg]; omega
        · simp [hs, hc, hp, hg]
    · simp [hs, hc]
  · simp [hs, EAGAIN]

/-- Instance of `write_serialization`: connect, a send that starts a write, a
second send that times out on the permit, the completion callback, and a send
whose `bt_gatt_write` fails. -/
theorem write_serialization_witness :
    run_client bt_sphero_client.initial
        [ClientEvent.set_conn true, ClientEvent.send 0, ClientEvent.send 0, ClientEvent.sent,
         ClientEvent.send (-12)]
      = some { initialized := true, write_pending := false, sending := 0, conn := true,
               writes_in_flight := 0 }
    ∧ (0 : Nat) ≤ 1 :=
  ⟨by decide,
    (write_serialization
      [ClientEvent.set_conn true, ClientEvent.send 0, ClientEvent.send 0, ClientEvent.sent,
       ClientEvent.send (-12)]
      { initialized := true, write_pending := false, sending := 0, conn := true,
        writes_in_flight := 0 } (by decide)).1⟩

/-- C8: in a state reached from `bt_sphero_client_init` in which the permit is
available, a send on a null connection returns `-ENOTCONN`, and a send whose
`bt_gatt_write` fails returns that failure; either way no write is started,
write-pending is clear and the permit count is left at 0, so the next send
(whatever the connection is by then) times out on the permit with `-EAGAIN`
and changes nothing. -/
theorem send_failure_keeps_permit (evs : List ClientEvent) (c : bt_sphero_client)
    (h : run_client bt_sphero_client.initial evs = some c) (hp : c.sending = 1) :
    (c.conn = false → ∀ gatt_err,
        (bt_sphero_client_send c gatt_err).1 = -ENOTCONN
        ∧ (bt_sphero_client_send c gatt_err).2.writes_in_flight = c.writes_in_flight
        ∧ (bt_sphero_client_send c gatt_err).2.write_pending = false
        ∧ (bt_sphero_client_send c gatt_err).2.sending = 0)
    ∧ (c.conn = true → ∀ gatt_err, gatt_err ≠ 0 →
        (bt_sphero_client_send c gatt_err).1 = gatt_err
        ∧ (bt_sphero_client_send c gatt_err).2.writes_in_flight = c.writes_in_flight
        ∧ (bt_sphero_client_send c gatt_err).2.write_pending = false
        ∧ (bt_sphero_client_send c gatt_err).2.sending = 0)
    ∧ (∀ gatt_err, c.conn = false ∨ gatt_err ≠ 0 → ∀ (connected : Bool) (next_err : Int),
        bt_sphero_client_send
            { (bt_sphero_client_send c gatt_err).2 with conn := connected } next_err
          = (-EAGAIN, { (bt_sphero_client_send c gatt_err).2 with conn := connected })) := by
  obtain ⟨h1, h2⟩ := permit_invariant_run evs _ c permit_invariant_initial h
  have hpend : c.write_pending = false := by
    cases hw : c.write_pending with
    | false => rfl
    | true => have := h2 hw; omega
  refine ⟨?_, ?_, ?_⟩
  · intro hc gatt_err
    simp [bt_sphero_client_send, k_sem_take, hp, hc, hpend]
  · intro hc gatt_err hg
    simp [bt_sphero_client_send, k_sem_take, hp, hc, hpend, hg]
  · intro gatt_err hor connected next_err
    rcases hor with hc | hg
    · simp [bt_sphero_client_send, k_sem_take, hp, hc, EAGAIN]
    · cases hc : c.conn with
      | false => simp [bt_sphero_client_send, k_sem_take, hp, hc, EAGAIN]
      | true => simp [bt_sphero_client_send, k_sem_take, hp, hc, hpend, hg, EAGAIN]

/-- Instance of `send_failure_keeps_permit`: right after initialisation the
connection is still null; the first send returns `-ENOTCONN` and the second
one `-EAGAIN`. -/
theorem send_failure_keeps_permit_witness :
    run_client bt_sphero_client.initial [] = some bt_sphero_client.initial
    ∧ bt_sphero_client.initial.sending = 1
    ∧ (bt_sphero_client_send bt_sphero_client.initial 0).1 = -ENOTCONN
    ∧ (bt_sphero_client_send (bt_sphero_client_send bt_sphero_client.initial 0).2 0).1
        = -EAGAIN :=
  ⟨rfl, rfl,
    ((send_failure_keeps_permit [] bt_sphero_client.initial rfl rfl).1 rfl 0).1,
    by decide⟩

/-! ## Frame compression -/

theorem extracted_bit (px idx : Nat) :
    ((px &&& (1 <<< idx)) >>> idx) % 256 = (px.testBit idx).toNat := by
  apply Nat.eq_of_testBit_eq
  intro j
  have e : (256 : Nat) = 2 ^ 8 := by norm_num
  rw [e, Nat.testBit_mod_two_pow, Nat.testBit_shiftRight, Nat.testBit_and, Nat.one_shiftLeft,
    Nat.testBit_two_pow]
  cases j with
  | zero => cases h : px.testBit idx <;> simp [h]
  | succ j =>
    have : ¬ idx = idx + (j + 1) := by omega
    have h1 : Nat.testBit 1 (j + 1) = false := by
      simp [Nat.testBit, Nat.shiftRight_succ_inside]
    cases h : px.testBit idx <;> simp [this, h1]

theorem pack_bits_testBit : ∀ (b0 b1 b2 b3 b4 b5 b6 b7 : Bool),
    (pack_bits b0 b1 b2 b3 b4 b5 b6 b7).testBit 7 = b0
    ∧ (pack_bits b0 b1 b2 b3 b4 b5 b6 b7).testBit 6 = b1
    ∧ (pack_bits b0 b1 b2 b3 b4 b5 b6 b7).testBit 5 = b2
    ∧ (pack_bits b0 b1 b2 b3 b4 b5 b6 b7).testBit 4 = b3
    ∧ (pack_bits b0 b1 b2 b3 b4 b5 b6 b7).testBit 3 = b4
    ∧ (pack_bits b0 b1 b2 b3 b4 b5 b6 b7).testBit 2 = b5
    ∧ (pack_bits b0 b1 b2 b3 b4 b5 b6 b7).testBit 1 = b6
    ∧ (pack_bits b0 b1 b2 b3 b4 b5 b6 b7).testBit 0 = b7 := by
  decide

theorem row_byte_eq (frame : List (List Nat)) (idx row_idx : Nat) :
    row_byte frame idx row_idx
      = pack_bits ((pixel frame row_idx 0).testBit idx) ((pixel frame row_idx 1).testBit idx)
          ((pixel frame row_idx 2).testBit idx) ((pixel frame row_idx 3).testBit idx)
          ((pixel frame row_idx 4).testBit idx) ((pixel frame row_idx 5).testBit idx)
          ((pixel frame row_idx 6).testBit idx) ((pixel frame row_idx 7).testBit idx) := by
  simp only [row_byte, List.range, List.range.loop, List.foldl, extracted_bit, pack_bits]

theorem row_byte_testBit (frame : List (List Nat)) (idx row_idx col_idx : Nat)
    (h : col_idx < 8) :
    (row_byte frame idx row_idx).testBit (7 - col_idx)
      = (pixel frame row_idx col_idx).testBit idx := by
  rw [row_byte_eq]
  have hb := pack_bits_testBit ((pixel frame row_idx 0).testBit idx)
    ((pixel frame row_idx 1).testBit idx) ((pixel frame row_idx 2).testBit idx)
    ((pixel frame row_idx 3).testBit idx) ((pixel frame row_idx 4).testBit idx)
    ((pixel frame row_idx 5).testBit idx) ((pixel frame row_idx 6).testBit idx)
    ((pixel frame row_idx 7).testBit idx)
  obtain ⟨h0, h1, h2, h3, h4, h5, h6, h7⟩ := hb
  interval_cases col_idx
  · exact h0
  · exact h1
  · exact h2
  · exact h3
  · exact h4
  · exact h5
  · exact h6
  · exact h7

theorem compressed_frame_eq (frame : List (List Nat)) : compressed_frame frame =
    [row_byte frame 0 7, row_byte frame 0 6, row_byte frame 0 5, row_byte frame 0 4,
      row_byte frame 0 3, row_byte frame 0 2, row_byte frame 0 1, row_byte frame 0 0,
      row_byte frame 1 7, row_byte frame 1 6, row_byte frame 1 5, row_byte frame 1 4,
      row_byte frame 1 3, row_byte frame 1 2, row_byte frame 1 1, row_byte frame 1 0,
      row_byte frame 2 7, row_byte frame 2 6, row_byte frame 2 5, row_byte frame 2 4,
      row_byte frame 2 3, row_byte frame 2 2, row_byte frame 2 1, row_byte frame 2 0,
      row_byte frame 3 7, row_byte frame 3 6, row_byte frame 3 5, row_byte frame 3 4,
      row_byte frame 3 3, row_byte frame 3 2, row_byte frame 3 1, row_byte frame 3 0] := by
  simp only [compressed_frame, List.range, List.range.loop, List.foldl, List.nil_append, List.cons_append, List.append_assoc]

theorem compressed_frame_get (frame : List (List Nat)) (idx row_idx : Nat) (hp : idx < 4)
    (hr : row_idx < 8) :
    (compressed_frame frame)[8 * idx + (7 - row_idx)]? = some (row_byte frame idx row_idx) := by
  rw [compressed_frame_eq]
  interval_cases idx <;> interval_cases row_idx <;> rfl

theorem pixel_in_bounds (frame : List (List Nat)) (hrows : 8 ≤ frame.length)
    (hcols : ∀ r, r < 8 → 8 ≤ (frame.getD r []).length) (r c : Nat) (hr : r < 8) (hc : c < 8) :
    ∃ row, frame[r]? = some row ∧ row[c]? = some (pixel frame r c) := by
  have h1 : r < frame.length := by omega
  refine ⟨frame[r], List.getElem?_eq_getElem h1, ?_⟩
  have h2 := hcols r hr
  simp only [List.getD_eq_getElem?_getD, List.getElem?_eq_getElem h1, Option.getD_some] at h2
  have h3 : c < (frame[r]).length := by omega
  simp [pixel, List.getD_eq_getElem?_getD, List.getElem?_eq_getElem h1, List.getElem?_eq_getElem h3]

theorem low_nibble_eq (a b : Nat) (ha : a < 16) (hb : b < 16)
    (h : ∀ p, p < 4 → a.testBit p = b.testBit p) : a = b := by
  apply Nat.eq_of_testBit_eq
  intro j
  by_cases hj : j < 4
  · exact h j hj
  · have e : 16 ≤ 2 ^ j := by
      calc 16 = 2 ^ 4 := by norm_num
        _ ≤ 2 ^ j := Nat.pow_le_pow_right (by norm_num) (by omega)
    rw [Nat.testBit_lt_two_pow (by omega), Nat.testBit_lt_two_pow (by omega)]

theorem testBit_mod_16 (a p : Nat) (hp : p < 4) : (a % 16).testBit p = a.testBit p := by
  have e : (16 : Nat) = 2 ^ 4 := by norm_num
  rw [e, Nat.testBit_mod_two_pow]
  simp [hp]

theorem row_byte_congr (frame other : List (List Nat)) (idx row_idx : Nat) (hp : idx < 4)
    (h : ∀ c, c < 8 → pixel other row_idx c % 16 = pixel frame row_idx c % 16) :
    row_byte other idx row_idx = row_byte frame idx row_idx := by
  have hb : ∀ c, c < 8 → (pixel other row_idx c).testBit idx = (pixel frame row_idx c).testBit idx := by
    intro c hc
    rw [← testBit_mod_16 _ _ hp, h c hc, testBit_mod_16 _ _ hp]
  rw [row_byte_eq, row_byte_eq, hb 0 (by omega), hb 1 (by omega), hb 2 (by omega),
    hb 3 (by omega), hb 4 (by omega), hb 5 (by omega), hb 6 (by omega), hb 7 (by omega)]

/-- C10: for a frame that contains the 8x8 grid, the compressed frame has 32
bytes; bit `7 - c` of byte `8 * p + (7 - r)` is bit `p` of `frame[r][c]`; two
such frames with all grid pixels below 16 and the same compressed bytes agree on
the grid; and frames that agree on the grid modulo 16 compress to the same
bytes (bits 4..7 of a pixel do not reach the output). -/
theorem compressed_frame_bits (frame : List (List Nat)) (hrows : 8 ≤ frame.length)
    (hcols : ∀ r, r < 8 → 8 ≤ (frame.getD r []).length) :
    (compressed_frame frame).length = 32
    ∧ (∀ p r c, p < 4 → r < 8 → c < 8 →
        ∃ byte row px, (compressed_frame frame)[8 * p + (7 - r)]? = some byte
          ∧ frame[r]? = some row ∧ row[c]? = some px
          ∧ byte.testBit (7 - c) = px.testBit p)
    ∧ (∀ other : List (List Nat), 8 ≤ other.length →
        (∀ r, r < 8 → 8 ≤ (other.getD r []).length) →
        (∀ r c, r < 8 → c < 8 → pixel frame r c < 16 ∧ pixel other r c < 16) →
        compressed_frame other = compressed_frame frame →
        ∀ r c, r < 8 → c < 8 → pixel other r c = pixel frame r c)
    ∧ (∀ other : List (List Nat), 8 ≤ other.length →
        (∀ r, r < 8 → 8 ≤ (other.getD r []).length) →
        (∀ r c, r < 8 → c < 8 → pixel other r c % 16 = pixel frame r c % 16) →
        compressed_frame other = compressed_frame frame) := by
  refine ⟨?_, ?_, ?_, ?_⟩
  · rw [compressed_frame_eq]; rfl
  · intro p r c hp hr hc
    obtain ⟨row, hrow, hpx⟩ := pixel_in_bounds frame hrows hcols r c hr hc
    exact ⟨row_byte frame p r, row, pixel frame r c, compressed_frame_get frame p r hp hr,
      hrow, hpx, row_byte_testBit frame p r c hc⟩
  · intro other _ _ hlow heq r c hr hc
    apply low_nibble_eq _ _ (hlow r c hr hc).2 (hlow r c hr hc).1
    intro p hp
    have h1 := compressed_frame_get other p r hp hr
    rw [heq, compressed_frame_get frame p r hp hr] at h1
    have h2 : row_byte frame p r = row_byte other p r := by
      simpa using h1
    rw [← row_byte_testBit other p r c hc, ← row_byte_testBit frame p r c hc, h2]
  · intro other _ _ hmod
    rw [compressed_frame_eq, compressed_frame_eq]
    have hb : ∀ p r, p < 4 → r < 8 → row_byte other p r = row_byte frame p r :=
      fun p r hp hr => row_byte_congr frame other p r hp (fun c hc => hmod r c hr hc)
    simp only [hb 0 7 (by omega) (by omega), hb 0 6 (by omega) (by omega),
      hb 0 5 (by omega) (by omega), hb 0 4 (by omega) (by omega), hb 0 3 (by omega) (by omega),
      hb 0 2 (by omega) (by omega), hb 0 1 (by omega) (by omega), hb 0 0 (by omega) (by omega),
      hb 1 7 (by omega) (by omega), hb 1 6 (by omega) (by omega),
      hb 1 5 (by omega) (by omega), hb 1 4 (by omega) (by omega), hb 1 3 (by omega) (by omega),
      hb 1 2 (by omega) (by omega), hb 1 1 (by omega) (by omega), hb 1 0 (by omega) (by omega),
      hb 2 7 (by omega) (by omega), hb 2 6 (by omega) (by omega),
      hb 2 5 (by omega) (by omega), hb 2 4 (by omega) (by omega), hb 2 3 (by omega) (by omega),
      hb 2 2 (by omega) (by omega), hb 2 1 (by omega) (by omega), hb 2 0 (by omega) (by omega),
      hb 3 7 (by omega) (by omega), hb 3 6 (by omega) (by omega),
      hb 3 5 (by omega) (by omega), hb 3 4 (by omega) (by omega), hb 3 3 (by omega) (by omega),
      hb 3 2 (by omega) (by omega), hb 3 1 (by omega) (by omega), hb 3 0 (by omega) (by omega)]

/-- Instance of `compressed_frame_bits`: the 8x8 frame whose pixel in row `r`
and column `c` is `r + c`. -/
theorem compressed_frame_bits_witness :
    8 ≤ ((List.range 8).map (fun r => (List.range 8).map (fun c => r + c))).length
    ∧ (∀ r, r < 8 →
        8 ≤ (((List.range 8).map (fun r => (List.range 8).map (fun c => r + c))).getD r []).length)
    ∧ (compressed_frame ((List.range 8).map (fun r => (List.range 8).map (fun c => r + c)))).length
        = 32 :=
  ⟨by decide, by decide,
    (compressed_frame_bits ((List.range 8).map (fun r => (List.range 8).map (fun c => r + c)))
      (by decide) (by decide)).1⟩

/-! ## Construction -/

theorem execute_trace (s : Sphero) (packet : Packet) (test client : Bool)
    (send_err : Nat → Int) :
    (execute s packet test client send_err).trace
      = s.trace ++ execute_effects packet test client send_err := rfl

theorem handle_packet_trace (s : Sphero) (packet : Packet) :
    (handle_packet s packet).trace = s.trace := by
  simp only [handle_packet]
  split <;> rfl

/-- What the wake exchange leaves behind while packets arrive: the only waiter
is the wake packet's, on signal 0; either no response is cached and the signal
is untouched, or the reply is cached and the signal carries the wake id. -/
theorem arrivals_state (wake_id : Nat) (arrivals : List Packet) :
    ∀ s : Sphero,
      (∀ k, s.waiting k = if k = wake_id then some 0 else none) →
      (∀ k, k ≠ wake_id → s.responses k = none) →
      ((s.responses wake_id = none ∧ s.signals 0 = { signaled := 0, result := 0 })
        ∨ (s.responses wake_id ≠ none ∧ (s.signals 0).result = wake_id)) →
      (arrivals.foldl handle_packet s).trace = s.trace
      ∧ (∀ k, k ≠ wake_id → (arrivals.foldl handle_packet s).responses k = none)
      ∧ (((arrivals.foldl handle_packet s).responses wake_id = none
            ∧ (arrivals.foldl handle_packet s).signals 0 = { signaled := 0, result := 0 })
          ∨ ((arrivals.foldl handle_packet s).responses wake_id ≠ none
            ∧ ((arrivals.foldl handle_packet s).signals 0).result = wake_id)) := by
  induction arrivals with
  | nil => intro s _ hr hs; exact ⟨rfl, hr, hs⟩
  | cons packet rest ih =>
    intro s hw hr hs
    simp only [List.foldl_cons]
    by_cases hid : packet.id = wake_id
    · have hwait : s.waiting packet.id = some 0 := by rw [hw]; simp [hid]
      have hstep : handle_packet s packet
          = { s with
              responses := insert_or_assign s.responses packet.id packet
              signals := store_signal s.signals 0 { signaled := 1, result := packet.id } } := by
        simp [handle_packet, hwait]
      have h := ih (handle_packet s packet)
        (by intro k; rw [hstep]; exact hw k)
        (by
          intro k hk
          rw [hstep]
          simp only [insert_or_assign]
          rw [if_neg (by rw [hid]; exact hk)]
          exact hr k hk)
        (by
          right
          rw [hstep]
          simp [insert_or_assign, store_signal, hid])
      rw [handle_packet_trace] at h
      exact h
    · have hwait : s.waiting packet.id = none := by rw [hw]; simp [hid]
      have hstep : handle_packet s packet = s := by simp [handle_packet, hwait]
      rw [hstep]
      exact ih s hw hr hs

/-- The trace up to the reset in a run whose wait returns no response: the
effects of `subscribe`, the execution of the wake command, and the one line
that `wait_for_response` logs. -/
theorem before_reset_trace (enc : Encoders) (env : Environment)
    (h : Sphero.wake_response enc env = WaitResult.nullopt) :
    (Sphero.before_reset enc env).trace
      = (if env.client 0 = true then
            [Effect.subscribe]
              ++ (if env.subscribe_err ≠ 0 then
                    [Effect.log (LogLine.subscribe_failed env.subscribe_err)]
                  else [])
              ++ [Effect.release_sphero]
          else [Effect.log LogLine.sphero_not_found])
        ++ execute_effects enc.wake false (env.client 1) (env.send_err 1)
        ++ [Effect.log
              (if env.poll_err ≠ 0 then LogLine.wait_failed env.poll_err
               else LogLine.no_packet_for_id 0)] := by
  have hsub : (subscribe Sphero.fresh (env.client 0) env.subscribe_err).trace
      = (if env.client 0 = true then
            [Effect.subscribe]
              ++ (if env.subscribe_err ≠ 0 then
                    [Effect.log (LogLine.subscribe_failed env.subscribe_err)]
                  else [])
              ++ [Effect.release_sphero]
          else [Effect.log LogLine.sphero_not_found]) := by
    cases hc : env.client 0 <;> simp [subscribe, Sphero.fresh, hc]
  have hmaps : (subscribe Sphero.fresh (env.client 0) env.subscribe_err).waiting
        = (fun _ => none)
      ∧ (subscribe Sphero.fresh (env.client 0) env.subscribe_err).responses = (fun _ => none)
      ∧ (subscribe Sphero.fresh (env.client 0) env.subscribe_err).signals
        = (fun _ => { signaled := 0, result := 0 })
      ∧ (subscribe Sphero.fresh (env.client 0) env.subscribe_err).next_signal = 0 := by
    cases hc : env.client 0 <;> simp [subscribe, Sphero.fresh]
  obtain ⟨hw0, hr0, hs0, hn0⟩ := hmaps
  have harr := arrivals_state enc.wake.id env.arrivals
    (wake_with_response (subscribe Sphero.fresh (env.client 0) env.subscribe_err) enc
      (env.client 1) (env.send_err 1)).2
    (by intro k; simp [wake_with_response, setup_response, execute, insert_or_assign, hw0, hn0])
    (by intro k _; simp [wake_with_response, setup_response, execute, hr0])
    (by
      left
      simp [wake_with_response, setup_response, execute, store_signal, hr0, hn0])
  obtain ⟨htrace, hother, hcase⟩ := harr
  have hsig : (wake_with_response (subscribe Sphero.fresh (env.client 0) env.subscribe_err) enc
      (env.client 1) (env.send_err 1)).1.signal = 0 := by
    simp [wake_with_response, setup_response, execute, hn0]
  have hpre : (wake_with_response (subscribe Sphero.fresh (env.client 0) env.subscribe_err) enc
      (env.client 1) (env.send_err 1)).2.trace
      = (subscribe Sphero.fresh (env.client 0) env.subscribe_err).trace
        ++ execute_effects enc.wake false (env.client 1) (env.send_err 1) := by
    simp [wake_with_response, setup_response, execute, default_test]
  simp only [Sphero.wake_response] at h
  simp only [Sphero.before_reset]
  by_cases herr : env.poll_err ≠ 0
  · simp only [wait_for_response, if_pos herr, htrace, hpre, hsub]
  · simp only [wait_for_response, if_neg herr, hsig] at h ⊢
    rcases hcase with ⟨hnone, hzero⟩ | ⟨hsome, hres⟩
    · have hlook : (List.foldl handle_packet
          (wake_with_response (subscribe Sphero.fresh (env.client 0) env.subscribe_err) enc
            (env.client 1) (env.send_err 1)).2 env.arrivals).responses 0 = none := by
        by_cases h0 : (0 : Nat) = enc.wake.id
        · have hn := hnone
          rw [← h0] at hn
          exact hn
        · exact hother 0 h0
      simp only [hzero, hlook, htrace, hpre, hsub]
    · exfalso
      rw [hres] at h
      revert h
      split
      · rename_i hnone; exact absurd hnone hsome
      · simp [deref_second, erase]

/-- C6 (as stated, refuted): in a run where `bt_sphero_subscribe` fails and
the wake response never arrives, and in a run where `scanner_get_sphero`
returns `nullptr` inside `subscribe`, the constructor completes, having logged
the failures, sent the wake command and then sent the LED and matrix-colour
reset commands. -/
theorem construct_resets_after_failure :
    (subscribe_error_run.subscribe_err ≠ 0
      ∧ Sphero.wake_response sample_encoders subscribe_error_run = WaitResult.nullopt
      ∧ (Sphero.construct sample_encoders 2 subscribe_error_run).trace
          = [Effect.subscribe, Effect.log (LogLine.subscribe_failed (-120)),
             Effect.release_sphero,
             Effect.client_send 0 [0x8d, 0x0a, 0x13, 0x0d, 0x01, 0xd8], Effect.release_sphero,
             Effect.log (LogLine.wait_failed (-11)),
             Effect.client_send 0 [0x8d, 0x1a, 0x1c, 3, 0, 0, 0xd8], Effect.release_sphero,
             Effect.client_send 0 [0x8d, 0x1a, 0x2f, 0, 0, 0, 0xd8], Effect.release_sphero]
      ∧ sends (Sphero.construct sample_encoders 2 subscribe_error_run).trace
          = [(0, [0x8d, 0x0a, 0x13, 0x0d, 0x01, 0xd8]),
             (0, [0x8d, 0x1a, 0x1c, 3, 0, 0, 0xd8]),
             (0, [0x8d, 0x1a, 0x2f, 0, 0, 0, 0xd8])])
    ∧ (not_found_run.client 0 = false
      ∧ Sphero.wake_response sample_encoders not_found_run = WaitResult.nullopt
      ∧ (Sphero.construct sample_encoders 2 not_found_run).trace
          = [Effect.log LogLine.sphero_not_found,
             Effect.client_send 0 [0x8d, 0x0a, 0x13, 0x0d, 0x01, 0xd8], Effect.release_sphero,
             Effect.log (LogLine.wait_failed (-11)),
             Effect.client_send 0 [0x8d, 0x1a, 0x1c, 3, 0, 0, 0xd8], Effect.release_sphero,
             Effect.client_send 0 [0x8d, 0x1a, 0x2f, 0, 0, 0, 0xd8], Effect.release_sphero]
      ∧ sends (Sphero.construct sample_encoders 2 not_found_run).trace
          = [(0, [0x8d, 0x0a, 0x13, 0x0d, 0x01, 0xd8]),
             (0, [0x8d, 0x1a, 0x1c, 3, 0, 0, 0xd8]),
             (0, [0x8d, 0x1a, 0x2f, 0, 0, 0, 0xd8])]) := by
  decide

/-- The constructor always ends with `turn_off_all_leds`: its trace is the one
up to the wait followed by the execution of the all-LEDs command (when the mask
is not zero) and of the matrix-colour command. -/
theorem construct_trace_split (enc : Encoders) (LAST : Nat) (env : Environment) :
    (Sphero.construct enc LAST env).trace
      = (Sphero.before_reset enc env).trace
        ++ (if (mask_and_values LAST (fun i => if i < LAST then some 0 else none)).1 ≠ 0 then
              execute_effects
                (enc.set_all_leds_with_8_bit_mask
                  (mask_and_values LAST (fun i => if i < LAST then some 0 else none)).1
                  (mask_and_values LAST (fun i => if i < LAST then some 0 else none)).2)
                false (env.client 2) (env.send_err 2)
            else [])
        ++ execute_effects (enc.set_led_matrix_color 0 0 0) false (env.client 3)
            (env.send_err 3) := by
  simp only [Sphero.construct, turn_off_all_leds, set_all_leds_with_map, execute_trace,
    default_test]
  split
  · simp [execute_trace]
  · simp

/-- C6 (amended): in every run in which `wait_for_response` returns no response
for the wake command (the poll timed out, or nothing was cached), whether or
not the subscription failed, the constructor completes and its whole trace is:
for `subscribe`, the log line "Sphero not found" alone when
`scanner_get_sphero` returned `nullptr`, else the subscribe call, the log line
of its error if it returned one, and the release; then the execution of the
wake command; then the one log line of the failed wait; then the execution of
the all-LEDs command (when its mask is not zero) and of the matrix-colour
`(0, 0, 0)` command. A failed poll always makes the wait return no response. -/
theorem construct_failure_run (enc : Encoders) (LAST : Nat) (env : Environment)
    (h : Sphero.wake_response enc env = WaitResult.nullopt) :
    (Sphero.construct enc LAST env).trace
      = (if env.client 0 = true then
            [Effect.subscribe]
              ++ (if env.subscribe_err ≠ 0 then
                    [Effect.log (LogLine.subscribe_failed env.subscribe_err)]
                  else [])
              ++ [Effect.release_sphero]
          else [Effect.log LogLine.sphero_not_found])
        ++ execute_effects enc.wake false (env.client 1) (env.send_err 1)
        ++ [Effect.log
              (if env.poll_err ≠ 0 then LogLine.wait_failed env.poll_err
               else LogLine.no_packet_for_id 0)]
        ++ (if (mask_and_values LAST (fun i => if i < LAST then some 0 else none)).1 ≠ 0 then
              execute_effects
                (enc.set_all_leds_with_8_bit_mask
                  (mask_and_values LAST (fun i => if i < LAST then some 0 else none)).1
                  (mask_and_values LAST (fun i => if i < LAST then some 0 else none)).2)
                false (env.client 2) (env.send_err 2)
            else [])
        ++ execute_effects (enc.set_led_matrix_color 0 0 0) false (env.client 3)
            (env.send_err 3)
    ∧ (env.poll_err ≠ 0 → Sphero.wake_response enc env = WaitResult.nullopt) := by
  refine ⟨?_, ?_⟩
  · rw [construct_trace_split, before_reset_trace enc env h]
  · intro herr
    simp [Sphero.wake_response, wait_for_response, herr]

/-- Instance of `construct_failure_run`: the run with a failing subscription
and a timed-out poll. -/
theorem construct_failure_run_witness :
    Sphero.wake_response sample_encoders subscribe_error_run = WaitResult.nullopt
    ∧ (Sphero.construct sample_encoders 2 subscribe_error_run).trace
      = [Effect.subscribe, Effect.log (LogLine.subscribe_failed (-120)), Effect.release_sphero,
         Effect.client_send 0 [0x8d, 0x0a, 0x13, 0x0d, 0x01, 0xd8], Effect.release_sphero,
         Effect.log (LogLine.wait_failed (-11)),
         Effect.client_send 0 [0x8d, 0x1a, 0x1c, 3, 0, 0, 0xd8], Effect.release_sphero,
         Effect.client_send 0 [0x8d, 0x1a, 0x2f, 0, 0, 0, 0xd8], Effect.release_sphero] :=
  ⟨by decide,
    (construct_failure_run sample_encoders 2 subscribe_error_run (by decide)).1.trans
      (by decide)⟩

end SpheroSwarm
